import Mathlib

/-!
Shallow embedding of the a11y-audit-ai correction pipeline
(src/python-agent/main.py): the structural heuristic engine
(`heuristic_fix_all`), the generation/quality-gate/fallback flow of the
`/api/fix` and `/api/analyze` handlers, and the legacy point-fixups.

Conventions of the embedding:
* Python strings are Lean `String`s; `len` is `String.length` (both count
  unicode code points).  The Python operations `str.replace`,
  `in` (substring), `str.split` / `join`, `str.strip`, `str.startswith`
  are re-implemented below on `List Char` with Python semantics.
* Python float division `len(a)/len(b)` is modelled as exact rational
  division; a division by zero (Python `ZeroDivisionError`) is an
  exception, so the embedded division returns `Option ℚ` and the `none`
  case is routed to the surrounding `except` handler exactly as in the
  source.
* The generative model (`corrector(...)`) is an external collaborator: one
  invocation is modelled by its outcome `gen : Option String` (`none` =
  the call raised, `some g` = it returned `g` as `generated_text`).  Both
  handlers build the identical prompt from the identical input, and the
  decoding parameters are deterministic, so one outcome value serves both.
* BeautifulSoup is an external library.  The parsed document is modelled
  by the tree type `HNode`/`HForest`, which records exactly the data the
  heuristic engine reads or writes: tag name, the class token list
  (`get('class', [])`), the `id` attribute and the `href` attribute,
  plus children.  Parsing and `prettify` serialization are abstract
  parameters (`parse : String → Option HForest`, `pretty`); `parse`
  returning `none` models the `except` branch of `heuristic_fix_all`.
-/

/-! ### Python string primitives -/

/-- Whitespace characters of Python `str.split()` / `str.strip()`
(ASCII subset, which covers every string the pipeline manipulates). -/
def isPyWs (c : Char) : Bool :=
  c = ' ' || c = '\t' || c = '\n' || c = '\r' || c = '\x0b' || c = '\x0c'

/-- Fuelled core of Python `str.replace` (replace every non-overlapping
occurrence, scanning left to right).  The fuel is the length of the
string, which bounds the number of steps. -/
def replaceFuel (old new : List Char) : Nat → List Char → List Char
  | _, [] => []
  | 0, s => s
  | fuel + 1, c :: rest =>
    if old ≠ [] ∧ old.isPrefixOf (c :: rest) then
      new ++ replaceFuel old new fuel ((c :: rest).drop old.length)
    else
      c :: replaceFuel old new fuel rest

/-- Python `s.replace(old, new)` for a non-empty `old` (every use in the
source has a non-empty pattern). -/
def pyReplace (s old new : String) : String :=
  ⟨replaceFuel old.data new.data s.data.length s.data⟩

/-- Python `sub in s` (contiguous substring test). -/
def containsL (sub : List Char) : List Char → Bool
  | [] => sub.isPrefixOf []
  | c :: rest => sub.isPrefixOf (c :: rest) || containsL sub rest

/-- Python `sub in s` on strings. -/
def pyContains (s sub : String) : Bool :=
  containsL sub.data s.data

/-- Python `s.startswith(p)`. -/
def pyStartswith (s p : String) : Bool :=
  p.data.isPrefixOf s.data

/-- Python `s.strip()`. -/
def pyStrip (s : String) : String :=
  ⟨((s.data.dropWhile isPyWs).reverse.dropWhile isPyWs).reverse⟩

/-- Python `s.split()` (split on whitespace runs, no empty words),
accumulating the current word in reverse. -/
def wordsAux : List Char → List Char → List (List Char)
  | [], [] => []
  | [], acc => [acc.reverse]
  | c :: rest, acc =>
    if isPyWs c then
      match acc with
      | [] => wordsAux rest []
      | _ => acc.reverse :: wordsAux rest []
    else
      wordsAux rest (c :: acc)

/-- Join a word list with single spaces. -/
def joinWords : List (List Char) → List Char
  | [] => []
  | [w] => w
  | w :: w2 :: ws => w ++ (' ' :: joinWords (w2 :: ws))

/-- Python `" ".join(s.split())` — collapse whitespace runs to single
spaces and trim the ends. -/
def pyJoinSplit (s : String) : String :=
  ⟨joinWords (wordsAux s.data [])⟩

/-- Python float division `a / b` on lengths: exact rational value, or
`none` for the `ZeroDivisionError` that a zero divisor raises. -/
def pyDiv (a b : Nat) : Option ℚ :=
  if b = 0 then none else some ((a : ℚ) / (b : ℚ))

/-! ### Generation attempt and quality gate of the two handlers -/

/-- The task prompt prefix `"fix wcag:"` shared by both handlers
(and by training preprocessing). -/
def taskPre : String := "fix wcag:"

/-- The prefix-stripping step both handlers use on the raw generation:
`if raw.startswith("fix wcag:"): raw = raw.replace("fix wcag:", "").strip()`. -/
def stripTask (g : String) : String :=
  if pyStartswith g taskPre then pyStrip (pyReplace g taskPre "") else g

/-- The `try` block of `fix_code` (main.py lines 111–135): on generator
success, strip the task prefix first, then apply the length quality gate
`0.6 <= ratio <= 2.0` (inclusive bounds) to the stripped candidate.
Returns `(ai_success, codigo_corregido)`; any exception — including the
`ZeroDivisionError` on an empty original — leaves `(false, code)`. -/
def fixTry (code : String) (gen : Option String) : Bool × String :=
  match gen with
  | none => (false, code)
  | some g =>
    let raw := stripTask g
    match pyDiv raw.length code.length with
    | none => (false, code)
    | some ratio =>
      if (0.6 : ℚ) ≤ ratio ∧ ratio ≤ 2.0 then (true, raw) else (false, code)

/-- The `try` block of `analyze_code` (main.py lines 169–192): the ratio
`len(raw_fix)/len(datos.code)` is computed on the *unstripped* raw
generation, the gate is the *strict* band `0.5 < ratio < 2.0`, and the
prefix is stripped only after acceptance. -/
def analyzeTry (code : String) (gen : Option String) : Bool × String :=
  match gen with
  | none => (false, code)
  | some g =>
    match pyDiv g.length code.length with
    | none => (false, code)
    | some ratio =>
      if (0.5 : ℚ) < ratio ∧ ratio < 2.0 then (true, stripTask g) else (false, code)

/-! ### Parsed-document model for the heuristic engine -/

mutual
/-- One node of the parsed fragment.  An element carries the data that
`heuristic_fix_all` reads or writes: its tag name, its class token list
(BeautifulSoup's `get('class', [])`, the empty list standing for a
missing/removed `class` attribute), its `id` and `href` attributes, and
its children.  All other markup data (text of attributes the engine never
touches, etc.) is irrelevant to the engine and not represented. -/
inductive HNode : Type where
  | elem (tag : String) (classes : List String) (idAttr : Option String)
      (href : Option String) (children : HForest)
  | text (s : String)
/-- A sequence of sibling nodes; the whole parsed fragment is an `HForest`. -/
inductive HForest : Type where
  | nil : HForest
  | cons (n : HNode) (f : HForest) : HForest
end

mutual
/-- One pass of the semantic-remapping loop body for a single
`(class_name, new_tag)` pair: rename every `div` carrying the class token
to the new tag and drop the triggering token from its class list
(main.py lines 29–38, where `find_all` collects all matches up front and
each is mutated independently).  The `Bool` is the contribution to the
`changed` flag. -/
def remapN (c t' : String) : HNode → HNode × Bool
  | .text s => (.text s, false)
  | .elem tag cls i h ch =>
    let r := remapF c t' ch
    if tag = "div" ∧ c ∈ cls then (.elem t' (cls.erase c) i h r.1, true)
    else (.elem tag cls i h r.1, r.2)
/-- `remapN` over a sibling list. -/
def remapF (c t' : String) : HForest → HForest × Bool
  | .nil => (.nil, false)
  | .cons n f =>
    let a := remapN c t' n
    let b := remapF c t' f
    (.cons a.1 b.1, a.2 || b.2)
end

/-- The `replacements` loop of `heuristic_fix_all` (main.py lines 19–38),
unrolled in the dict's insertion order. -/
def remapAll (f : HForest) : HForest × Bool :=
  let s1 := remapF "header" "header" f
  let s2 := remapF "nav" "nav" s1.1
  let s3 := remapF "content" "main" s2.1
  let s4 := remapF "main" "main" s3.1
  let s5 := remapF "footer" "footer" s4.1
  let s6 := remapF "sidebar" "aside" s5.1
  let s7 := remapF "aside" "aside" s6.1
  (s7.1, s1.2 || s2.2 || s3.2 || s4.2 || s5.2 || s6.2 || s7.2)

mutual
/-- BeautifulSoup `soup.find(t)`: first element with the given tag name in
document (preorder) order, or `none`. -/
def findTagN (t : String) : HNode → Option HNode
  | .text _ => none
  | .elem tag cls i h ch =>
    if tag = t then some (.elem tag cls i h ch) else findTagF t ch
/-- `findTagN` over a sibling list. -/
def findTagF (t : String) : HForest → Option HNode
  | .nil => none
  | .cons n f =>
    match findTagN t n with
    | some m => some m
    | none => findTagF t f
end

mutual
/-- Count the elements with a given tag name (used to state claims about
"exactly one header" etc.; not part of the source, which only ever asks
for the first match). -/
def countTagN (t : String) : HNode → Nat
  | .text _ => 0
  | .elem tag _ _ _ ch => (if tag = t then 1 else 0) + countTagF t ch
/-- `countTagN` over a sibling list. -/
def countTagF (t : String) : HForest → Nat
  | .nil => 0
  | .cons n f => countTagN t n + countTagF t f
end

mutual
/-- BeautifulSoup `soup.find('a', href=target)`: is there an anchor whose
`href` attribute equals `target`? -/
def hasSkipN (target : String) : HNode → Bool
  | .text _ => false
  | .elem tag _ _ h ch =>
    decide (tag = "a" ∧ h = some target) || hasSkipF target ch
/-- `hasSkipN` over a sibling list. -/
def hasSkipF (target : String) : HForest → Bool
  | .nil => false
  | .cons n f => hasSkipN target n || hasSkipF target f
end

mutual
/-- Count the anchors whose `href` equals `target` (for stating the
skip-link uniqueness claims). -/
def countSkipN (target : String) : HNode → Nat
  | .text _ => 0
  | .elem tag _ _ h ch =>
    (if tag = "a" ∧ h = some target then 1 else 0) + countSkipF target ch
/-- `countSkipN` over a sibling list. -/
def countSkipF (target : String) : HForest → Nat
  | .nil => 0
  | .cons n f => countSkipN target n + countSkipF target f
end

mutual
/-- Mutation `main['id'] = 'main-content'` applied to the first `main`
element in document order (the one `soup.find('main')` returns).  The
`Bool` reports whether a `main` was found (the traversal stops there). -/
def setIdN : HNode → HNode × Bool
  | .text s => (.text s, false)
  | .elem tag cls i h ch =>
    if tag = "main" then (.elem tag cls (some "main-content") h ch, true)
    else
      let r := setIdF ch
      if r.2 then (.elem tag cls i h r.1, true) else (.elem tag cls i h ch, false)
/-- `setIdN` over a sibling list. -/
def setIdF : HForest → HForest × Bool
  | .nil => (.nil, false)
  | .cons n f =>
    let a := setIdN n
    if a.2 then (.cons a.1 f, true)
    else
      let b := setIdF f
      (.cons n b.1, b.2)
end

/-- The synthesized skip link
`<a href="#{mid}" class="skip-link">Skip to main content</a>`
(main.py lines 58–60). -/
def skipLink (mid : String) : HNode :=
  .elem "a" ["skip-link"] none (some ("#" ++ mid))
    (.cons (.text "Skip to main content") .nil)

mutual
/-- Mutation `header.insert(0, skip_link)` applied to the first `header`
element in document order (the one `soup.find('header')` returns).  The
`Bool` reports whether a `header` was found. -/
def insSkipN (mid : String) : HNode → HNode × Bool
  | .text s => (.text s, false)
  | .elem tag cls i h ch =>
    if tag = "header" then (.elem tag cls i h (.cons (skipLink mid) ch), true)
    else
      let r := insSkipF mid ch
      if r.2 then (.elem tag cls i h r.1, true) else (.elem tag cls i h ch, false)
/-- `insSkipN` over a sibling list. -/
def insSkipF (mid : String) : HForest → HForest × Bool
  | .nil => (.nil, false)
  | .cons n f =>
    let a := insSkipN mid n
    if a.2 then (.cons a.1 f, true)
    else
      let b := insSkipF mid f
      (.cons n b.1, b.2)
end

/-- The `id` attribute of a node (`none` on a text node). -/
def idOf : HNode → Option String
  | .elem _ _ i _ _ => i
  | .text _ => none

/-- `soup.find('main')` followed by reading its `id`: `none` when no main
exists, `some i` with `i` the (possibly missing) id of the first main. -/
def mainProbe (f : HForest) : Option (Option String) :=
  (findTagF "main" f).map idOf

/-- Python truthiness of `main.get('id')`: `None` and the empty string
are falsy, any other string truthy. -/
def pyTruthyS : Option String → Bool
  | none => false
  | some s => decide (s ≠ "")

/-- The identifier the skip link ends up targeting, given the first main's
id attribute: the existing id when truthy, else the assigned
`"main-content"`. -/
def effId (i : Option String) : String :=
  match i with
  | some s => if s = "" then "main-content" else s
  | none => "main-content"

/-- The skip-link synthesis step of `heuristic_fix_all`
(main.py lines 40–63): if a `header` and a `main` are both found, ensure
the first `main` has a truthy `id` (assigning `main-content` otherwise),
and, when no anchor already targets `#id`, insert a skip link as the
first child of the first `header`.  The `Bool` is this step's
contribution to the `changed` flag. -/
def skipPhase (f : HForest) : HForest × Bool :=
  if (findTagF "header" f).isSome then
    match mainProbe f with
    | none => (f, false)
    | some i =>
      match (if pyTruthyS i then (f, i.getD "", false)
             else ((setIdF f).1, "main-content", true) : HForest × String × Bool) with
      | (f1, mid, assigned) =>
        if hasSkipF ("#" ++ mid) f1 then (f1, assigned)
        else ((insSkipF mid f1).1, true)
  else (f, false)

/-- The whole tree transformation of `heuristic_fix_all`: semantic
remapping followed by skip-link synthesis, with the combined `changed`
flag. -/
def heuristicTree (f : HForest) : HForest × Bool :=
  let r := remapAll f
  let s := skipPhase r.1
  (s.1, r.2 || s.2)

/-- `heuristic_fix_all` (main.py lines 12–72).  `parse` and `pretty` are
the external BeautifulSoup parser and `prettify` serializer;
`parse code = none` models the `except` branch (any parse failure), in
which the input is returned unchanged.  When the tree transformation
reports no change, the input string is returned verbatim; otherwise the
mutated tree is re-serialized. -/
def heuristic_fix_all (parse : String → Option HForest)
    (pretty : HForest → String) (code : String) : String :=
  match parse code with
  | none => code
  | some f =>
    let r := heuristicTree f
    if r.2 then pretty r.1 else code

/-! ### The fix and analyze pipelines -/

/-- Steps 1–3 of `fix_code` (main.py lines 104–139): generation attempt,
quality gate, and heuristic fallback when the AI failed, was rejected, or
produced a no-op.  This is the working fragment before the legacy
point-fixups. -/
def fixSteps123 (parse : String → Option HForest) (pretty : HForest → String)
    (code : String) (gen : Option String) : String :=
  let a := fixTry code gen
  if a.1 = false ∨ a.2 = code then heuristic_fix_all parse pretty code else a.2

/-- A single apostrophe, written with an escape. -/
def apos : String := "\x27"

/-- The body of the legacy `role="button"` fixup (main.py lines 145–147):
note it is applied to `datos.code`, the original input, not to the
working fragment. -/
def buttonFixup (s : String) : String :=
  let t1 := pyReplace (pyReplace s "role=\"button\"" "")
      ("role=" ++ apos ++ "button" ++ apos) ""
  let t2 := pyJoinSplit t1
  pyReplace t2 "<button >" "<button>"

/-- Step 5 of `fix_code` (main.py lines 149–151): collapse a
triply-escaped empty `alt` attribute. -/
def altClean (s : String) : String :=
  if pyContains s "alt=\"\"\"" then pyReplace s "alt=\"\"\"" "alt=\"\"" else s

/-- Step 4 of `fix_code` (main.py lines 141–147) followed by `altClean`:
the legacy `role="button"` fixup is triggered when the working fragment
contains `role="button"` and the *original* contains both `<button` and
`role="button"`, in which case the result is recomputed from the
original input, discarding the working fragment. -/
def fixLegacy (code working : String) : String :=
  altClean
    (if pyContains working "role=\"button\"" then
      if pyContains code "<button" ∧ pyContains code "role=\"button\"" then
        buttonFixup code
      else working
    else working)

/-- The full `fix_code` handler body with the model loaded
(main.py lines 104–155): the `fixedCode` field of the response. -/
def fix_code (parse : String → Option HForest) (pretty : HForest → String)
    (code : String) (gen : Option String) : String :=
  fixLegacy code (fixSteps123 parse pretty code gen)

/-- The `/api/fix` endpoint including the model-availability check
(main.py lines 100–102): `none` models the `{"error": "Modelo no
cargado"}` response returned when the model is not loaded. -/
def fixEndpoint (loaded : Bool) (parse : String → Option HForest)
    (pretty : HForest → String) (code : String) (gen : Option String) :
    Option String :=
  if loaded then some (fix_code parse pretty code gen) else none

/-- Step 1 of `analyze_code` (main.py lines 163–196): the `suggested_fix`
fragment after the generation attempt, the analyze quality gate, and the
heuristic fallback. -/
def analyzeStep1 (parse : String → Option HForest) (pretty : HForest → String)
    (code : String) (gen : Option String) : String :=
  let a := analyzeTry code gen
  if a.1 = false ∨ a.2 = code then heuristic_fix_all parse pretty code else a.2

/-- The normalization `analyze_code` applies before diffing
(main.py line 199): `" ".join(s.split())`. -/
def analyzeNormalize (s : String) : String := pyJoinSplit s

/-- Whether `analyze_code` emits an issue (main.py line 201): the
suggested fragment and the input differ after whitespace
normalization. -/
def analyzeEmitsIssue (parse : String → Option HForest)
    (pretty : HForest → String) (code : String) (gen : Option String) : Bool :=
  decide (analyzeNormalize (analyzeStep1 parse pretty code gen) ≠ analyzeNormalize code)

/-! ### Evaluation lemmas for the quality gates -/

/-- The inclusive fix gate `0.6 ≤ a/b ≤ 2.0` over positive integer
lengths, rephrased without division. -/
theorem fix_band_iff (a b : Nat) (hb : b ≠ 0) :
    ((0.6 : ℚ) ≤ (a : ℚ) / (b : ℚ) ∧ (a : ℚ) / (b : ℚ) ≤ 2.0) ↔
      (3 * b ≤ 5 * a ∧ a ≤ 2 * b) := by
  have hb' : (0 : ℚ) < (b : ℚ) := by exact_mod_cast Nat.pos_of_ne_zero hb
  have h1 : ((0.6 : ℚ) ≤ (a : ℚ) / (b : ℚ)) ↔ 3 * b ≤ 5 * a := by
    rw [show (0.6 : ℚ) = 3 / 5 by norm_num, div_le_div_iff₀ (by norm_num) hb',
      show (3 : ℚ) * b = ((3 * b : ℕ) : ℚ) by push_cast; ring,
      show (a : ℚ) * 5 = ((5 * a : ℕ) : ℚ) by push_cast; ring]
    exact Nat.cast_le
  have h2 : ((a : ℚ) / (b : ℚ) ≤ 2.0) ↔ a ≤ 2 * b := by
    rw [show (2.0 : ℚ) = 2 by norm_num, div_le_iff₀ hb',
      show (2 : ℚ) * b = ((2 * b : ℕ) : ℚ) by push_cast; ring]
    exact Nat.cast_le
  exact and_congr h1 h2

/-- The strict analyze gate `0.5 < a/b < 2.0` over positive integer
lengths, rephrased without division. -/
theorem analyze_band_iff (a b : Nat) (hb : b ≠ 0) :
    ((0.5 : ℚ) < (a : ℚ) / (b : ℚ) ∧ (a : ℚ) / (b : ℚ) < 2.0) ↔
      (b < 2 * a ∧ a < 2 * b) := by
  have hb' : (0 : ℚ) < (b : ℚ) := by exact_mod_cast Nat.pos_of_ne_zero hb
  have h1 : ((0.5 : ℚ) < (a : ℚ) / (b : ℚ)) ↔ b < 2 * a := by
    rw [show (0.5 : ℚ) = 1 / 2 by norm_num, div_lt_div_iff₀ (by norm_num) hb',
      show (1 : ℚ) * b = ((b : ℕ) : ℚ) by ring,
      show (a : ℚ) * 2 = ((2 * a : ℕ) : ℚ) by push_cast; ring]
    exact Nat.cast_lt
  have h2 : ((a : ℚ) / (b : ℚ) < 2.0) ↔ a < 2 * b := by
    rw [show (2.0 : ℚ) = 2 by norm_num, div_lt_iff₀ hb',
      show (2 : ℚ) * b = ((2 * b : ℕ) : ℚ) by push_cast; ring]
    exact Nat.cast_lt
  exact and_congr h1 h2

/-- `fixTry` on a non-empty original, in decidable form. -/
theorem fixTry_some_eq (code g : String) (h : code.length ≠ 0) :
    fixTry code (some g) =
      if 3 * code.length ≤ 5 * (stripTask g).length ∧
          (stripTask g).length ≤ 2 * code.length
      then (true, stripTask g) else (false, code) := by
  have hd : pyDiv (stripTask g).length code.length =
      some (((stripTask g).length : ℚ) / (code.length : ℚ)) := by
    unfold pyDiv; rw [if_neg h]
  simp only [fixTry, hd, fix_band_iff (stripTask g).length code.length h]

/-- `analyzeTry` on a non-empty original, in decidable form. -/
theorem analyzeTry_some_eq (code g : String) (h : code.length ≠ 0) :
    analyzeTry code (some g) =
      if code.length < 2 * g.length ∧ g.length < 2 * code.length
      then (true, stripTask g) else (false, code) := by
  have hd : pyDiv g.length code.length =
      some ((g.length : ℚ) / (code.length : ℚ)) := by
    unfold pyDiv; rw [if_neg h]
  simp only [analyzeTry, hd, analyze_band_iff g.length code.length h]

/-- `fixTry` on an empty original: the division raises, the handler's
`except` catches, and the candidate is rejected. -/
theorem fixTry_empty (code : String) (g : String) (h : code.length = 0) :
    fixTry code (some g) = (false, code) := by
  have hd : pyDiv (stripTask g).length code.length = none := by
    unfold pyDiv; rw [if_pos h]
  simp only [fixTry, hd]

/-- `analyzeTry` on an empty original: same automatic rejection. -/
theorem analyzeTry_empty (code : String) (g : String) (h : code.length = 0) :
    analyzeTry code (some g) = (false, code) := by
  have hd : pyDiv g.length code.length = none := by
    unfold pyDiv; rw [if_pos h]
  simp only [analyzeTry, hd]

/-! ### Structural lemmas about the heuristic tree transformation -/

mutual
/-- No `div` element in the node carries the class token `c`
(the condition under which a remapping pass for `c` is a no-op). -/
def noDivN (c : String) : HNode → Bool
  | .text _ => true
  | .elem tag cls _ _ ch => !(decide (tag = "div" ∧ c ∈ cls)) && noDivF c ch
/-- `noDivN` over a sibling list. -/
def noDivF (c : String) : HForest → Bool
  | .nil => true
  | .cons n f => noDivN c n && noDivF c f
end

/-- No `div` anywhere in the forest carries any of the seven trigger
class tokens of the remapping table. -/
def noTrigDiv (f : HForest) : Bool :=
  noDivF "header" f && noDivF "nav" f && noDivF "content" f &&
    noDivF "main" f && noDivF "footer" f && noDivF "sidebar" f &&
    noDivF "aside" f

mutual
theorem countTag_findTagN (t : String) (n : HNode) (h : 0 < countTagN t n) :
    (findTagN t n).isSome := by
  cases n with
  | text s => simp [countTagN] at h
  | elem tag cls i hr ch =>
    by_cases ht : tag = t
    · simp [findTagN, ht]
    · simp only [countTagN, if_neg ht, Nat.zero_add] at h
      simp only [findTagN, if_neg ht]
      exact countTag_findTagF t ch h
theorem countTag_findTagF (t : String) (f : HForest) (h : 0 < countTagF t f) :
    (findTagF t f).isSome := by
  cases f with
  | nil => simp [countTagF] at h
  | cons n f =>
    simp only [countTagF] at h
    simp only [findTagF]
    cases hn : findTagN t n with
    | some m => simp
    | none =>
      have hz : countTagN t n = 0 := by
        by_contra hc
        have := countTag_findTagN t n (Nat.pos_of_ne_zero hc)
        rw [hn] at this
        simp at this
      rw [hz, Nat.zero_add] at h
      exact countTag_findTagF t f h
end

mutual
theorem hasSkip_countN (target : String) (n : HNode) :
    hasSkipN target n = decide (0 < countSkipN target n) := by
  cases n with
  | text s => simp [hasSkipN, countSkipN]
  | elem tag cls i hr ch =>
    by_cases hc : tag = "a" ∧ hr = some target
    · simp [hasSkipN, countSkipN, hc]
    · simp only [hasSkipN, countSkipN, if_neg hc, decide_eq_true_eq,
        Nat.zero_add, hasSkip_countF target ch, decide_eq_false_iff_not,
        Bool.false_or]
      simp [hc]
theorem hasSkip_countF (target : String) (f : HForest) :
    hasSkipF target f = decide (0 < countSkipF target f) := by
  cases f with
  | nil => simp [hasSkipF, countSkipF]
  | cons n f =>
    simp only [hasSkipF, countSkipF, hasSkip_countN target n,
      hasSkip_countF target f]
    by_cases ha : 0 < countSkipN target n <;>
      by_cases hb : 0 < countSkipF target f <;> simp [ha, hb]
end

mutual
theorem setId_found_iffN (n : HNode) :
    (setIdN n).2 = (findTagN "main" n).isSome := by
  cases n with
  | text s => simp [setIdN, findTagN]
  | elem tag cls i hr ch =>
    by_cases ht : tag = "main"
    · simp [setIdN, findTagN, ht]
    · by_cases hf : (setIdF ch).2 = true
      · simp [setIdN, findTagN, ht, hf, (setId_found_iffF ch).symm]
      · simp [setIdN, findTagN, ht, hf, (setId_found_iffF ch).symm]
theorem setId_found_iffF (f : HForest) :
    (setIdF f).2 = (findTagF "main" f).isSome := by
  cases f with
  | nil => simp [setIdF, findTagF]
  | cons n f =>
    by_cases hn : (setIdN n).2 = true
    · have := (setId_found_iffN n).symm.trans hn
      cases hm : findTagN "main" n with
      | none => rw [hm] at this; simp at this
      | some m => simp [setIdF, findTagF, hn, hm]
    · have h2 := setId_found_iffN n
      rw [Bool.not_eq_true] at hn
      rw [hn] at h2
      cases hm : findTagN "main" n with
      | some m => rw [hm] at h2; simp at h2
      | none => simp [setIdF, findTagF, hn, hm, setId_found_iffF f]
end

mutual
theorem setId_countTagN (t : String) (n : HNode) :
    countTagN t (setIdN n).1 = countTagN t n := by
  cases n with
  | text s => simp [setIdN]
  | elem tag cls i hr ch =>
    by_cases ht : tag = "main"
    · simp [setIdN, countTagN, ht]
    · by_cases hf : (setIdF ch).2 = true
      · simp [setIdN, countTagN, ht, hf, setId_countTagF t ch]
      · simp [setIdN, countTagN, ht, hf]
theorem setId_countTagF (t : String) (f : HForest) :
    countTagF t (setIdF f).1 = countTagF t f := by
  cases f with
  | nil => simp [setIdF]
  | cons n f =>
    by_cases hn : (setIdN n).2 = true
    · simp [setIdF, countTagF, hn, setId_countTagN t n]
    · simp [setIdF, countTagF, hn, setId_countTagF t f]
end

mutual
theorem setId_countSkipN (target : String) (n : HNode) :
    countSkipN target (setIdN n).1 = countSkipN target n := by
  cases n with
  | text s => simp [setIdN]
  | elem tag cls i hr ch =>
    by_cases ht : tag = "main"
    · simp [setIdN, countSkipN, ht]
    · by_cases hf : (setIdF ch).2 = true
      · simp [setIdN, countSkipN, ht, hf, setId_countSkipF target ch]
      · simp [setIdN, countSkipN, ht, hf]
theorem setId_countSkipF (target : String) (f : HForest) :
    countSkipF target (setIdF f).1 = countSkipF target f := by
  cases f with
  | nil => simp [setIdF]
  | cons n f =>
    by_cases hn : (setIdN n).2 = true
    · simp [setIdF, countSkipF, hn, setId_countSkipN target n]
    · simp [setIdF, countSkipF, hn, setId_countSkipF target f]
end

mutual
theorem setId_noDivN (c : String) (n : HNode) :
    noDivN c (setIdN n).1 = noDivN c n := by
  cases n with
  | text s => simp [setIdN]
  | elem tag cls i hr ch =>
    by_cases ht : tag = "main"
    · simp [setIdN, noDivN, ht]
    · by_cases hf : (setIdF ch).2 = true
      · simp [setIdN, noDivN, ht, hf, setId_noDivF c ch]
      · simp [setIdN, noDivN, ht, hf]
theorem setId_noDivF (c : String) (f : HForest) :
    noDivF c (setIdF f).1 = noDivF c f := by
  cases f with
  | nil => simp [setIdF]
  | cons n f =>
    by_cases hn : (setIdN n).2 = true
    · simp [setIdF, noDivF, hn, setId_noDivN c n]
    · simp [setIdF, noDivF, hn, setId_noDivF c f]
end

mutual
theorem setId_probeN (n : HNode) (h : (findTagN "main" n).isSome) :
    (findTagN "main" (setIdN n).1).map idOf = some (some "main-content") := by
  cases n with
  | text s => simp [findTagN] at h
  | elem tag cls i hr ch =>
    by_cases ht : tag = "main"
    · simp [setIdN, findTagN, ht, idOf]
    · simp only [findTagN, if_neg ht] at h
      have hf : (setIdF ch).2 = true := by
        rw [setId_found_iffF ch]
        exact h
      simp only [setIdN, if_neg ht, hf, if_true]
      simp only [findTagN, if_neg ht]
      exact setId_probeF ch h
theorem setId_probeF (f : HForest) (h : (findTagF "main" f).isSome) :
    (findTagF "main" (setIdF f).1).map idOf = some (some "main-content") := by
  cases f with
  | nil => simp [findTagF] at h
  | cons n f =>
    by_cases hn : (setIdN n).2 = true
    · have hsome : (findTagN "main" n).isSome := by
        rw [← setId_found_iffN n]; exact hn
      have := setId_probeN n hsome
      cases hm : findTagN "main" (setIdN n).1 with
      | none => rw [hm] at this; simp at this
      | some m =>
        rw [hm] at this
        simp only [Option.map] at this
        simp [setIdF, findTagF, hn, hm, this]
    · have h2 := setId_found_iffN n
      rw [Bool.not_eq_true] at hn
      rw [hn] at h2
      cases hm : findTagN "main" n with
      | some m => rw [hm] at h2; simp at h2
      | none =>
        simp only [findTagF, hm] at h
        simp only [setIdF, hn, Bool.false_eq_true, if_false]
        simp only [findTagF, hm]
        exact setId_probeF f h
end

mutual
theorem ins_found_iffN (mid : String) (n : HNode) :
    (insSkipN mid n).2 = (findTagN "header" n).isSome := by
  cases n with
  | text s => simp [insSkipN, findTagN]
  | elem tag cls i hr ch =>
    by_cases ht : tag = "header"
    · simp [insSkipN, findTagN, ht]
    · by_cases hf : (insSkipF mid ch).2 = true
      · simp [insSkipN, findTagN, ht, hf, (ins_found_iffF mid ch).symm]
      · simp [insSkipN, findTagN, ht, hf, (ins_found_iffF mid ch).symm]
theorem ins_found_iffF (mid : String) (f : HForest) :
    (insSkipF mid f).2 = (findTagF "header" f).isSome := by
  cases f with
  | nil => simp [insSkipF, findTagF]
  | cons n f =>
    by_cases hn : (insSkipN mid n).2 = true
    · have := (ins_found_iffN mid n).symm.trans hn
      cases hm : findTagN "header" n with
      | none => rw [hm] at this; simp at this
      | some m => simp [insSkipF, findTagF, hn, hm]
    · have h2 := ins_found_iffN mid n
      rw [Bool.not_eq_true] at hn
      rw [hn] at h2
      cases hm : findTagN "header" n with
      | some m => rw [hm] at h2; simp at h2
      | none => simp [insSkipF, findTagF, hn, hm, ins_found_iffF mid f]
end

mutual
theorem ins_countTagN (t mid : String) (ha : t ≠ "a") (n : HNode) :
    countTagN t (insSkipN mid n).1 = countTagN t n := by
  cases n with
  | text s => simp [insSkipN]
  | elem tag cls i hr ch =>
    by_cases ht : tag = "header"
    · simp [insSkipN, countTagN, countTagF, skipLink, ht, Ne.symm ha]
    · by_cases hf : (insSkipF mid ch).2 = true
      · simp [insSkipN, countTagN, ht, hf, ins_countTagF t mid ha ch]
      · simp [insSkipN, countTagN, ht, hf]
theorem ins_countTagF (t mid : String) (ha : t ≠ "a") (f : HForest) :
    countTagF t (insSkipF mid f).1 = countTagF t f := by
  cases f with
  | nil => simp [insSkipF]
  | cons n f =>
    by_cases hn : (insSkipN mid n).2 = true
    · simp [insSkipF, countTagF, hn, ins_countTagN t mid ha n]
    · simp [insSkipF, countTagF, hn, ins_countTagF t mid ha f]
end

mutual
theorem ins_unchangedN (mid : String) (n : HNode)
    (h : (insSkipN mid n).2 = false) : (insSkipN mid n).1 = n := by
  cases n with
  | text s => simp [insSkipN]
  | elem tag cls i hr ch =>
    by_cases ht : tag = "header"
    · simp [insSkipN, ht] at h
    · by_cases hf : (insSkipF mid ch).2 = true
      · simp [insSkipN, ht, hf] at h
      · simp [insSkipN, ht, hf]
theorem ins_unchangedF (mid : String) (f : HForest)
    (h : (insSkipF mid f).2 = false) : (insSkipF mid f).1 = f := by
  cases f with
  | nil => simp [insSkipF]
  | cons n f =>
    by_cases hn : (insSkipN mid n).2 = true
    · simp [insSkipF, hn] at h
    · simp only [insSkipF, hn, Bool.false_eq_true, if_false] at h ⊢
      rw [ins_unchangedF mid f h]
end

/-- The synthesized skip link is one anchor targeting `#mid`. -/
theorem countSkip_skipLink (mid : String) :
    countSkipN ("#" ++ mid) (skipLink mid) = 1 := by
  simp [skipLink, countSkipN, countSkipF]

mutual
theorem ins_countSkipN (mid : String) (n : HNode)
    (h : (insSkipN mid n).2 = true) :
    countSkipN ("#" ++ mid) (insSkipN mid n).1 =
      countSkipN ("#" ++ mid) n + 1 := by
  cases n with
  | text s => simp [insSkipN] at h
  | elem tag cls i hr ch =>
    by_cases ht : tag = "header"
    · simp [insSkipN, countSkipN, countSkipF, skipLink, ht]
      omega
    · by_cases hf : (insSkipF mid ch).2 = true
      · simp [insSkipN, countSkipN, ht, hf, ins_countSkipF mid ch hf]
        omega
      · simp [insSkipN, ht, hf] at h
theorem ins_countSkipF (mid : String) (f : HForest)
    (h : (insSkipF mid f).2 = true) :
    countSkipF ("#" ++ mid) (insSkipF mid f).1 =
      countSkipF ("#" ++ mid) f + 1 := by
  cases f with
  | nil => simp [insSkipF] at h
  | cons n f =>
    by_cases hn : (insSkipN mid n).2 = true
    · simp [insSkipF, countSkipF, hn, ins_countSkipN mid n hn]
      omega
    · simp only [insSkipF, hn, Bool.false_eq_true, if_false] at h ⊢
      simp only [countSkipF, ins_countSkipF mid f h]
      omega
end

mutual
theorem ins_probeN (mid : String) (n : HNode) :
    (findTagN "main" (insSkipN mid n).1).map idOf =
      (findTagN "main" n).map idOf := by
  cases n with
  | text s => simp [insSkipN]
  | elem tag cls i hr ch =>
    by_cases ht : tag = "header"
    · simp [insSkipN, findTagN, findTagF, skipLink, ht]
    · by_cases hm : tag = "main"
      · by_cases hf : (insSkipF mid ch).2 = true
        · simp [insSkipN, findTagN, ht, hm, hf, idOf]
        · simp [insSkipN, findTagN, ht, hm, hf]
      · by_cases hf : (insSkipF mid ch).2 = true
        · simp only [insSkipN, if_neg ht, hf, if_true]
          simp only [findTagN, if_neg hm]
          exact ins_probeF mid ch
        · simp [insSkipN, ht, hf]
theorem ins_probeF (mid : String) (f : HForest) :
    (findTagF "main" (insSkipF mid f).1).map idOf =
      (findTagF "main" f).map idOf := by
  cases f with
  | nil => simp [insSkipF]
  | cons n f =>
    by_cases hn : (insSkipN mid n).2 = true
    · have hp := ins_probeN mid n
      cases hm : findTagN "main" n with
      | some m =>
        rw [hm] at hp
        cases hm2 : findTagN "main" (insSkipN mid n).1 with
        | none => rw [hm2] at hp; simp at hp
        | some m2 =>
          rw [hm2] at hp
          simp [insSkipF, findTagF, hn, hm, hm2, hp]
      | none =>
        rw [hm] at hp
        cases hm2 : findTagN "main" (insSkipN mid n).1 with
        | some m2 => rw [hm2] at hp; simp at hp
        | none => simp [insSkipF, findTagF, hn, hm, hm2, ins_probeF mid f]
    · simp only [insSkipF, hn, Bool.false_eq_true, if_false]
      simp only [findTagF]
      cases hm : findTagN "main" n with
      | some m => simp
      | none => exact ins_probeF mid f
end

mutual
theorem ins_noDivN (c mid : String) (n : HNode) :
    noDivN c (insSkipN mid n).1 = noDivN c n := by
  cases n with
  | text s => simp [insSkipN]
  | elem tag cls i hr ch =>
    by_cases ht : tag = "header"
    · simp [insSkipN, noDivN, noDivF, skipLink, ht]
    · by_cases hf : (insSkipF mid ch).2 = true
      · simp [insSkipN, noDivN, ht, hf, ins_noDivF c mid ch]
      · simp [insSkipN, noDivN, ht, hf]
theorem ins_noDivF (c mid : String) (f : HForest) :
    noDivF c (insSkipF mid f).1 = noDivF c f := by
  cases f with
  | nil => simp [insSkipF]
  | cons n f =>
    by_cases hn : (insSkipN mid n).2 = true
    · simp [insSkipF, noDivF, hn, ins_noDivN c mid n]
    · simp [insSkipF, noDivF, hn, ins_noDivF c mid f]
end

mutual
theorem remap_noopN (c t' : String) (n : HNode) (h : noDivN c n = true) :
    remapN c t' n = (n, false) := by
  cases n with
  | text s => simp [remapN]
  | elem tag cls i hr ch =>
    by_cases hc : tag = "div" ∧ c ∈ cls
    · simp [noDivN, hc] at h
    · simp only [noDivN, Bool.and_eq_true] at h
      have hf := remap_noopF c t' ch h.2
      simp [remapN, hf, hc]
theorem remap_noopF (c t' : String) (f : HForest) (h : noDivF c f = true) :
    remapF c t' f = (f, false) := by
  cases f with
  | nil => simp [remapF]
  | cons n f =>
    simp only [noDivF, Bool.and_eq_true] at h
    have hn := remap_noopN c t' n h.1
    have hf := remap_noopF c t' f h.2
    simp [remapF, hn, hf]
end

mutual
theorem remap_cleanN (c t' : String) (n : HNode) (ht' : t' ≠ "div") :
    noDivN c (remapN c t' n).1 = true := by
  cases n with
  | text s => simp [remapN, noDivN]
  | elem tag cls i hr ch =>
    by_cases hc : tag = "div" ∧ c ∈ cls
    · simp [remapN, noDivN, hc, ht', remap_cleanF c t' ch ht']
    · simp [remapN, noDivN, hc, remap_cleanF c t' ch ht']
theorem remap_cleanF (c t' : String) (f : HForest) (ht' : t' ≠ "div") :
    noDivF c (remapF c t' f).1 = true := by
  cases f with
  | nil => simp [remapF, noDivF]
  | cons n f =>
    simp [remapF, noDivF, remap_cleanN c t' n ht', remap_cleanF c t' f ht']
end

mutual
theorem remap_presN (c c2 t' : String) (n : HNode) (h : noDivN c n = true)
    (ht' : t' ≠ "div") : noDivN c (remapN c2 t' n).1 = true := by
  cases n with
  | text s => simp [remapN, noDivN]
  | elem tag cls i hr ch =>
    simp only [noDivN, Bool.and_eq_true] at h
    by_cases hc : tag = "div" ∧ c2 ∈ cls
    · simp [remapN, noDivN, hc, ht', remap_presF c c2 t' ch h.2 ht']
    · simp only [remapN, if_neg hc]
      simp only [noDivN, Bool.and_eq_true]
      exact ⟨h.1, remap_presF c c2 t' ch h.2 ht'⟩
theorem remap_presF (c c2 t' : String) (f : HForest) (h : noDivF c f = true)
    (ht' : t' ≠ "div") : noDivF c (remapF c2 t' f).1 = true := by
  cases f with
  | nil => simp [remapF, noDivF]
  | cons n f =>
    simp only [noDivF, Bool.and_eq_true] at h
    simp [remapF, noDivF, remap_presN c c2 t' n h.1 ht',
      remap_presF c c2 t' f h.2 ht']
end

/-- After the full remapping loop, no div carries any trigger class:
each pass removes its own class from every div, and later passes only
rename divs to non-div tags. -/
theorem remapAll_clean (f : HForest) : noTrigDiv (remapAll f).1 = true := by
  simp only [remapAll]
  have c1_1 : noDivF "header" (remapF "header" "header" f).1 = true :=
    remap_cleanF "header" "header" f (by decide)
  have c1_2 : noDivF "header" (remapF "nav" "nav" (remapF "header" "header" f).1).1 = true :=
    remap_presF "header" "nav" "nav" (remapF "header" "header" f).1 c1_1 (by decide)
  have c1_3 : noDivF "header" (remapF "content" "main" (remapF "nav" "nav" (remapF "header" "header" f).1).1).1 = true :=
    remap_presF "header" "content" "main" (remapF "nav" "nav" (remapF "header" "header" f).1).1 c1_2 (by decide)
  have c1_4 : noDivF "header" (remapF "main" "main" (remapF "content" "main" (remapF "nav" "nav" (remapF "header" "header" f).1).1).1).1 = true :=
    remap_presF "header" "main" "main" (remapF "content" "main" (remapF "nav" "nav" (remapF "header" "header" f).1).1).1 c1_3 (by decide)
  have c1_5 : noDivF "header" (remapF "footer" "footer" (remapF "main" "main" (remapF "content" "main" (remapF "nav" "nav" (remapF "header" "header" f).1).1).1).1).1 = true :=
    remap_presF "header" "footer" "footer" (remapF "main" "main" (remapF "content" "main" (remapF "nav" "nav" (remapF "header" "header" f).1).1).1).1 c1_4 (by decide)
  have c1_6 : noDivF "header" (remapF "sidebar" "aside" (remapF "footer" "footer" (remapF "main" "main" (remapF "content" "main" (remapF "nav" "nav" (remapF "header" "header" f).1).1).1).1).1).1 = true :=
    remap_presF "header" "sidebar" "aside" (remapF "footer" "footer" (remapF "main" "main" (remapF "content" "main" (remapF "nav" "nav" (remapF "header" "header" f).1).1).1).1).1 c1_5 (by decide)
  have c1_7 : noDivF "header" (remapF "aside" "aside" (remapF "sidebar" "aside" (remapF "footer" "footer" (remapF "main" "main" (remapF "content" "main" (remapF "nav" "nav" (remapF "header" "header" f).1).1).1).1).1).1).1 = true :=
    remap_presF "header" "aside" "aside" (remapF "sidebar" "aside" (remapF "footer" "footer" (remapF "main" "main" (remapF "content" "main" (remapF "nav" "nav" (remapF "header" "header" f).1).1).1).1).1).1 c1_6 (by decide)

  have c2_2 : noDivF "nav" (remapF "nav" "nav" (remapF "header" "header" f).1).1 = true :=
    remap_cleanF "nav" "nav" (remapF "header" "header" f).1 (by decide)
  have c2_3 : noDivF "nav" (remapF "content" "main" (remapF "nav" "nav" (remapF "header" "header" f).1).1).1 = true :=
    remap_presF "nav" "content" "main" (remapF "nav" "nav" (remapF "header" "header" f).1).1 c2_2 (by decide)
  have c2_4 : noDivF "nav" (remapF "main" "main" (remapF "content" "main" (remapF "nav" "nav" (remapF "header" "header" f).1).1).1).1 = true :=
    remap_presF "nav" "main" "main" (remapF "content" "main" (remapF "nav" "nav" (remapF "header" "header" f).1).1).1 c2_3 (by decide)
  have c2_5 : noDivF "nav" (remapF "footer" "footer" (remapF "main" "main" (remapF "content" "main" (remapF "nav" "nav" (remapF "header" "header" f).1).1).1).1).1 = true :=
    remap_presF "nav" "footer" "footer" (remapF "main" "main" (remapF "content" "main" (remapF "nav" "nav" (remapF "header" "header" f).1).1).1).1 c2_4 (by decide)
  have c2_6 : noDivF "nav" (remapF "sidebar" "aside" (remapF "footer" "footer" (remapF "main" "main" (remapF "content" "main" (remapF "nav" "nav" (remapF "header" "header" f).1).1).1).1).1).1 = true :=
    remap_presF "nav" "sidebar" "aside" (remapF "footer" "footer" (remapF "main" "main" (remapF "content" "main" (remapF "nav" "nav" (remapF "header" "header" f).1).1).1).1).1 c2_5 (by decide)
  have c2_7 : noDivF "nav" (remapF "aside" "aside" (remapF "sidebar" "aside" (remapF "footer" "footer" (remapF "main" "main" (remapF "content" "main" (remapF "nav" "nav" (remapF "header" "header" f).1).1).1).1).1).1).1 = true :=
    remap_presF "nav" "aside" "aside" (remapF "sidebar" "aside" (remapF "footer" "footer" (remapF "main" "main" (remapF "content" "main" (remapF "nav" "nav" (remapF "header" "header" f).1).1).1).1).1).1 c2_6 (by decide)

  have c3_3 : noDivF "content" (remapF "content" "main" (remapF "nav" "nav" (remapF "header" "header" f).1).1).1 = true :=
    remap_cleanF "content" "main" (remapF "nav" "nav" (remapF "header" "header" f).1).1 (by decide)
  have c3_4 : noDivF "content" (remapF "main" "main" (remapF "content" "main" (remapF "nav" "nav" (remapF "header" "header" f).1).1).1).1 = true :=
    remap_presF "content" "main" "main" (remapF "content" "main" (remapF "nav" "nav" (remapF "header" "header" f).1).1).1 c3_3 (by decide)
  have c3_5 : noDivF "content" (remapF "footer" "footer" (remapF "main" "main" (remapF "content" "main" (remapF "nav" "nav" (remapF "header" "header" f).1).1).1).1).1 = true :=
    remap_presF "content" "footer" "footer" (remapF "main" "main" (remapF "content" "main" (remapF "nav" "nav" (remapF "header" "header" f).1).1).1).1 c3_4 (by decide)
  have c3_6 : noDivF "content" (remapF "sidebar" "aside" (remapF "footer" "footer" (remapF "main" "main" (remapF "content" "main" (remapF "nav" "nav" (remapF "header" "header" f).1).1).1).1).1).1 = true :=
    remap_presF "content" "sidebar" "aside" (remapF "footer" "footer" (remapF "main" "main" (remapF "content" "main" (remapF "nav" "nav" (remapF "header" "header" f).1).1).1).1).1 c3_5 (by decide)
  have c3_7 : noDivF "content" (remapF "aside" "aside" (remapF "sidebar" "aside" (remapF "footer" "footer" (remapF "main" "main" (remapF "content" "main" (remapF "nav" "nav" (remapF "header" "header" f).1).1).1).1).1).1).1 = true :=
    remap_presF "content" "aside" "aside" (remapF "sidebar" "aside" (remapF "footer" "footer" (remapF "main" "main" (remapF "content" "main" (remapF "nav" "nav" (remapF "header" "header" f).1).1).1).1).1).1 c3_6 (by decide)

  have c4_4 : noDivF "main" (remapF "main" "main" (remapF "content" "main" (remapF "nav" "nav" (remapF "header" "header" f).1).1).1).1 = true :=
    remap_cleanF "main" "main" (remapF "content" "main" (remapF "nav" "nav" (remapF "header" "header" f).1).1).1 (by decide)
  have c4_5 : noDivF "main" (remapF "footer" "footer" (remapF "main" "main" (remapF "content" "main" (remapF "nav" "nav" (remapF "header" "header" f).1).1).1).1).1 = true :=
    remap_presF "main" "footer" "footer" (remapF "main" "main" (remapF "content" "main" (remapF "nav" "nav" (remapF "header" "header" f).1).1).1).1 c4_4 (by decide)
  have c4_6 : noDivF "main" (remapF "sidebar" "aside" (remapF "footer" "footer" (remapF "main" "main" (remapF "content" "main" (remapF "nav" "nav" (remapF "header" "header" f).1).1).1).1).1).1 = true :=
    remap_presF "main" "sidebar" "aside" (remapF "footer" "footer" (remapF "main" "main" (remapF "content" "main" (remapF "nav" "nav" (remapF "header" "header" f).1).1).1).1).1 c4_5 (by decide)
  have c4_7 : noDivF "main" (remapF "aside" "aside" (remapF "sidebar" "aside" (remapF "footer" "footer" (remapF "main" "main" (remapF "content" "main" (remapF "nav" "nav" (remapF "header" "header" f).1).1).1).1).1).1).1 = true :=
    remap_presF "main" "aside" "aside" (remapF "sidebar" "aside" (remapF "footer" "footer" (remapF "main" "main" (remapF "content" "main" (remapF "nav" "nav" (remapF "header" "header" f).1).1).1).1).1).1 c4_6 (by decide)

  have c5_5 : noDivF "footer" (remapF "footer" "footer" (remapF "main" "main" (remapF "content" "main" (remapF "nav" "nav" (remapF "header" "header" f).1).1).1).1).1 = true :=
    remap_cleanF "footer" "footer" (remapF "main" "main" (remapF "content" "main" (remapF "nav" "nav" (remapF "header" "header" f).1).1).1).1 (by decide)
  have c5_6 : noDivF "footer" (remapF "sidebar" "aside" (remapF "footer" "footer" (remapF "main" "main" (remapF "content" "main" (remapF "nav" "nav" (remapF "header" "header" f).1).1).1).1).1).1 = true :=
    remap_presF "footer" "sidebar" "aside" (remapF "footer" "footer" (remapF "main" "main" (remapF "content" "main" (remapF "nav" "nav" (remapF "header" "header" f).1).1).1).1).1 c5_5 (by decide)
  have c5_7 : noDivF "footer" (remapF "aside" "aside" (remapF "sidebar" "aside" (remapF "footer" "footer" (remapF "main" "main" (remapF "content" "main" (remapF "nav" "nav" (remapF "header" "header" f).1).1).1).1).1).1).1 = true :=
    remap_presF "footer" "aside" "aside" (remapF "sidebar" "aside" (remapF "footer" "footer" (remapF "main" "main" (remapF "content" "main" (remapF "nav" "nav" (remapF "header" "header" f).1).1).1).1).1).1 c5_6 (by decide)

  have c6_6 : noDivF "sidebar" (remapF "sidebar" "aside" (remapF "footer" "footer" (remapF "main" "main" (remapF "content" "main" (remapF "nav" "nav" (remapF "header" "header" f).1).1).1).1).1).1 = true :=
    remap_cleanF "sidebar" "aside" (remapF "footer" "footer" (remapF "main" "main" (remapF "content" "main" (remapF "nav" "nav" (remapF "header" "header" f).1).1).1).1).1 (by decide)
  have c6_7 : noDivF "sidebar" (remapF "aside" "aside" (remapF "sidebar" "aside" (remapF "footer" "footer" (remapF "main" "main" (remapF "content" "main" (remapF "nav" "nav" (remapF "header" "header" f).1).1).1).1).1).1).1 = true :=
    remap_presF "sidebar" "aside" "aside" (remapF "sidebar" "aside" (remapF "footer" "footer" (remapF "main" "main" (remapF "content" "main" (remapF "nav" "nav" (remapF "header" "header" f).1).1).1).1).1).1 c6_6 (by decide)

  have c7_7 : noDivF "aside" (remapF "aside" "aside" (remapF "sidebar" "aside" (remapF "footer" "footer" (remapF "main" "main" (remapF "content" "main" (remapF "nav" "nav" (remapF "header" "header" f).1).1).1).1).1).1).1 = true :=
    remap_cleanF "aside" "aside" (remapF "sidebar" "aside" (remapF "footer" "footer" (remapF "main" "main" (remapF "content" "main" (remapF "nav" "nav" (remapF "header" "header" f).1).1).1).1).1).1 (by decide)

  simp only [noTrigDiv, Bool.and_eq_true]
  exact ⟨⟨⟨⟨⟨⟨c1_7, c2_7⟩, c3_7⟩, c4_7⟩, c5_7⟩, c6_7⟩, c7_7⟩

/-- On a forest with no trigger divs the whole remapping loop is a
no-op with `changed = false`. -/
theorem remapAll_noop (f : HForest) (h : noTrigDiv f = true) :
    remapAll f = (f, false) := by
  simp only [noTrigDiv, Bool.and_eq_true] at h
  obtain ⟨⟨⟨⟨⟨⟨h1, h2⟩, h3⟩, h4⟩, h5⟩, h6⟩, h7⟩ := h
  have e1 : remapF "header" "header" f = (f, false) := remap_noopF "header" "header" f h1
  have e2 : remapF "nav" "nav" f = (f, false) := remap_noopF "nav" "nav" f h2
  have e3 : remapF "content" "main" f = (f, false) := remap_noopF "content" "main" f h3
  have e4 : remapF "main" "main" f = (f, false) := remap_noopF "main" "main" f h4
  have e5 : remapF "footer" "footer" f = (f, false) := remap_noopF "footer" "footer" f h5
  have e6 : remapF "sidebar" "aside" f = (f, false) := remap_noopF "sidebar" "aside" f h6
  have e7 : remapF "aside" "aside" f = (f, false) := remap_noopF "aside" "aside" f h7
  simp [remapAll, e1, e2, e3, e4, e5, e6, e7]

/-- One application of the skip-link phase on a forest that has a header
and a main: the number of anchors targeting the effective main id becomes
`max k 1` (one link is synthesized exactly when none existed), the first
main afterwards carries the truthy effective id, and header counts and
the no-trigger-div state are untouched. -/
theorem skipPhase_step (f : HForest) (i : Option String)
    (hH : 0 < countTagF "header" f)
    (hp : mainProbe f = some i) :
    countSkipF ("#" ++ effId i) (skipPhase f).1 =
      max (countSkipF ("#" ++ effId i) f) 1 ∧
    mainProbe (skipPhase f).1 = some (some (effId i)) ∧
    countTagF "header" (skipPhase f).1 = countTagF "header" f ∧
    (∀ c, noDivF c (skipPhase f).1 = noDivF c f) := by
  have hh : (findTagF "header" f).isSome = true := countTag_findTagF _ _ hH
  by_cases ht : pyTruthyS i = true
  · cases i with
    | none => simp [pyTruthyS] at ht
    | some v =>
      have hv : v ≠ "" := by simpa [pyTruthyS] using ht
      have hei : effId (some v) = v := by simp [effId, hv]
      rw [hei]
      by_cases hsk : hasSkipF ("#" ++ v) f = true
      · have hres : skipPhase f = (f, false) := by
          simp [skipPhase, hh, hp, ht, hsk]
        have hk : 0 < countSkipF ("#" ++ v) f := by
          rw [hasSkip_countF] at hsk
          simpa using hsk
        refine ⟨?_, ?_, ?_, ?_⟩ <;> simp [hres, hp]
        omega
      · have hres : skipPhase f = ((insSkipF v f).1, true) := by
          simp [skipPhase, hh, hp, ht, hsk]
        have hk : countSkipF ("#" ++ v) f = 0 := by
          rw [hasSkip_countF] at hsk
          simpa using hsk
        have hfound : (insSkipF v f).2 = true := by
          rw [ins_found_iffF]
          exact hh
        refine ⟨?_, ?_, ?_, ?_⟩
        · rw [hres]
          simp only [ins_countSkipF v f hfound, hk]
          decide
        · rw [hres]
          simp only [mainProbe] at hp ⊢
          simp only [ins_probeF v f, hp]
        · rw [hres]
          exact ins_countTagF "header" v (by decide) f
        · intro c
          rw [hres]
          exact ins_noDivF c v f
  · have hei : effId i = "main-content" := by
      cases i with
      | none => simp [effId]
      | some v =>
        have hv : v = "" := by
          by_contra hc
          simp [pyTruthyS, hc] at ht
        simp [effId, hv]
    rw [hei]
    have hms : (findTagF "main" f).isSome = true := by
      unfold mainProbe at hp
      cases hm : findTagF "main" f with
      | none => rw [hm] at hp; simp at hp
      | some m => simp
    have hprobe1 : mainProbe (setIdF f).1 = some (some "main-content") := by
      unfold mainProbe
      exact setId_probeF f hms
    have hcount1 : countSkipF ("#" ++ "main-content") (setIdF f).1 =
        countSkipF ("#" ++ "main-content") f := setId_countSkipF _ f
    have hhead1 : countTagF "header" (setIdF f).1 = countTagF "header" f :=
      setId_countTagF _ f
    have hh1 : (findTagF "header" (setIdF f).1).isSome = true := by
      apply countTag_findTagF
      rw [hhead1]
      exact hH
    by_cases hsk : hasSkipF ("#" ++ "main-content") (setIdF f).1 = true
    · have hsk2 : hasSkipF "#main-content" (setIdF f).1 = true := by
        simpa using hsk
      have hres : skipPhase f = ((setIdF f).1, true) := by
        simp [skipPhase, hh, hp, ht, hsk2]
      have hk : 0 < countSkipF ("#" ++ "main-content") f := by
        rw [hasSkip_countF, hcount1] at hsk
        simpa using hsk
      refine ⟨?_, ?_, ?_, ?_⟩
      · rw [hres]
        simp only [hcount1]
        omega
      · rw [hres]
        exact hprobe1
      · rw [hres]
        exact hhead1
      · intro c
        rw [hres]
        exact setId_noDivF c f
    · have hsk2 : hasSkipF "#main-content" (setIdF f).1 = false := by
        rw [← Bool.not_eq_true]
        simpa using hsk
      have hres : skipPhase f = ((insSkipF "main-content" (setIdF f).1).1, true) := by
        simp [skipPhase, hh, hp, ht, hsk2]
      have hk : countSkipF ("#" ++ "main-content") f = 0 := by
        rw [hasSkip_countF, hcount1] at hsk
        simpa using hsk
      have hfound : (insSkipF "main-content" (setIdF f).1).2 = true := by
        rw [ins_found_iffF]
        exact hh1
      refine ⟨?_, ?_, ?_, ?_⟩
      · rw [hres]
        simp only [ins_countSkipF "main-content" (setIdF f).1 hfound, hcount1, hk]
        decide
      · rw [hres]
        simp only [mainProbe] at hprobe1 ⊢
        simp only [ins_probeF "main-content" (setIdF f).1, hprobe1]
      · rw [hres]
        rw [ins_countTagF "header" "main-content" (by decide) (setIdF f).1]
        exact hhead1
      · intro c
        rw [hres]
        rw [ins_noDivF c "main-content" (setIdF f).1]
        exact setId_noDivF c f

/-- The effective main id is never the empty string. -/
theorem effId_ne (i : Option String) : effId i ≠ "" := by
  cases i with
  | none => simp [effId]
  | some v =>
    by_cases hv : v = "" <;> simp [effId, hv]

/-- A second run of the skip-link phase is a no-op: the first main already
carries a truthy id and an anchor targeting it exists. -/
theorem skipPhase_stable (f : HForest) (mid : String)
    (hh : (findTagF "header" f).isSome = true)
    (hp : mainProbe f = some (some mid)) (hm : mid ≠ "")
    (hs : 0 < countSkipF ("#" ++ mid) f) :
    skipPhase f = (f, false) := by
  have ht : pyTruthyS (some mid) = true := by simp [pyTruthyS, hm]
  have hsk : hasSkipF ("#" ++ mid) f = true := by
    rw [hasSkip_countF]
    simpa using hs
  simp [skipPhase, hh, hp, ht, hsk]

/-- A second run of the whole tree transformation is a no-op on a forest
that is already remapped, probed and skip-linked. -/
theorem heuristicTree_stable (f : HForest) (mid : String)
    (hd : noTrigDiv f = true)
    (hh : 0 < countTagF "header" f)
    (hp : mainProbe f = some (some mid)) (hm : mid ≠ "")
    (hs : 0 < countSkipF ("#" ++ mid) f) :
    heuristicTree f = (f, false) := by
  have hr := remapAll_noop f hd
  have hhs : (findTagF "header" f).isSome = true := countTag_findTagF _ _ hh
  have hsp := skipPhase_stable f mid hhs hp hm hs
  simp [heuristicTree, hr, hsp]

/-! ### The claims -/

/-- Claim C7: the heuristic engine is total and parse-failure-safe — the
embedded `heuristic_fix_all` is a total Lean function (the `try/except`
of the source is modelled by the `Option`-valued parser), and whenever
the parse fails the input string is returned unchanged, for every parser,
serializer and input. -/
theorem claim_C7 (parse : String → Option HForest) (pretty : HForest → String)
    (code : String) (h : parse code = none) :
    heuristic_fix_all parse pretty code = code := by
  simp [heuristic_fix_all, h]

/-- Witness for C7 at a concrete failing parser and input. -/
theorem claim_C7_witness :
    (fun _ : String => (none : Option HForest)) "<div" = none ∧
    heuristic_fix_all (fun _ => none) (fun _ => "") "<div" = "<div" :=
  ⟨rfl, claim_C7 (fun _ => none) (fun _ => "") "<div" rfl⟩

/-- Claim C8: no-op safety — when neither the semantic remapping pass nor
the skip-link pass reports a change, `heuristic_fix_all` returns the
parsed input string byte-for-byte (never re-serializing), for every
parser and serializer. -/
theorem claim_C8 (parse : String → Option HForest) (pretty : HForest → String)
    (code : String) (f : HForest) (hp : parse code = some f)
    (h1 : (remapAll f).2 = false)
    (h2 : (skipPhase (remapAll f).1).2 = false) :
    heuristic_fix_all parse pretty code = code := by
  have hc : (heuristicTree f).2 = false := by
    simp [heuristicTree, h1, h2]
  simp [heuristic_fix_all, hp, hc]

/-- Witness for C8 at a concrete parser, serializer and no-op input. -/
theorem claim_C8_witness :
    (fun s : String => if s = "<p>x</p>" then some HForest.nil else none)
        "<p>x</p>" = some HForest.nil ∧
    (remapAll HForest.nil).2 = false ∧
    (skipPhase (remapAll HForest.nil).1).2 = false ∧
    heuristic_fix_all
        (fun s => if s = "<p>x</p>" then some HForest.nil else none)
        (fun _ => "DRIFTED") "<p>x</p>" = "<p>x</p>" :=
  ⟨rfl, rfl, rfl,
    claim_C8 (fun s => if s = "<p>x</p>" then some HForest.nil else none)
      (fun _ => "DRIFTED") "<p>x</p>" HForest.nil rfl rfl rfl⟩

/-- A fragment with two headers and one main (all parsed, no classes, no
ids, no anchors). -/
def twoHeaderFrag : HForest :=
  .cons (.elem "header" [] none none .nil)
    (.cons (.elem "header" [] none none .nil)
      (.cons (.elem "main" [] none none .nil) .nil))

/-- Counterexample to claim C2 as stated: on a parsed fragment with two
header elements and one main element the engine does NOT skip skip-link
synthesis — the tree transformation of `heuristic_fix_all` still inserts
an anchor targeting `#main-content` (the source only asks
`soup.find('header')`, i.e. for the first header, and never counts
headers). -/
theorem claim_C2_counterexample :
    countTagF "header" twoHeaderFrag = 2 ∧
    countTagF "main" twoHeaderFrag = 1 ∧
    countSkipF "#main-content" twoHeaderFrag = 0 ∧
    countSkipF "#main-content" (heuristicTree twoHeaderFrag).1 = 1 ∧
    (heuristicTree twoHeaderFrag).2 = true :=
  ⟨rfl, rfl, rfl, rfl, rfl⟩

/-- Claim C2, amended: skip-link synthesis runs whenever the parsed tree
contains at least one header-role element and at least one main-content
element — `find` returns the first header, so two or more headers do not
make it skip; when no anchor already targets the effective main id, a
skip link is synthesized (into the first header) even with two or more
headers present. -/
theorem claim_C2 (f : HForest) (i : Option String)
    (hH : 2 ≤ countTagF "header" f)
    (hp : mainProbe f = some i)
    (hs : countSkipF ("#" ++ effId i) f = 0) :
    countSkipF ("#" ++ effId i) (skipPhase f).1 = 1 := by
  obtain ⟨h1, -, -, -⟩ := skipPhase_step f i (by omega) hp
  rw [h1, hs]
  decide

/-- Witness for the amended C2 at the two-header fragment. -/
theorem claim_C2_witness :
    2 ≤ countTagF "header" twoHeaderFrag ∧
    mainProbe twoHeaderFrag = some none ∧
    countSkipF ("#" ++ effId none) twoHeaderFrag = 0 ∧
    countSkipF ("#" ++ effId none) (skipPhase twoHeaderFrag).1 = 1 :=
  ⟨by decide, rfl, by decide,
    claim_C2 twoHeaderFrag none (by decide) rfl (by decide)⟩

/-- Claim C9: skip-link uniqueness.  For a parsed fragment whose remapped
tree has exactly one header and exactly one main, running the engine's
tree transformation twice (the second application on the first's output,
which is what re-parsing the serialized output yields for a faithful
parser/serializer pair) leaves exactly `max k 1` anchors targeting the
effective main id, where `k` is the count before: a fragment with no such
anchor ends with exactly one synthesized skip link, and a fragment that
already targets the main id never gains a second one. -/
theorem claim_C9 (t t1 : HForest) (b1 : Bool) (i : Option String)
    (hremap : remapAll t = (t1, b1))
    (hH : countTagF "header" t1 = 1)
    (hM : countTagF "main" t1 = 1)
    (hp : mainProbe t1 = some i) :
    countSkipF ("#" ++ effId i) ((heuristicTree (heuristicTree t).1).1) =
      max (countSkipF ("#" ++ effId i) t1) 1 := by
  obtain ⟨c1, p1, hh1, d1⟩ := skipPhase_step t1 i (by omega) hp
  have ht2 : (heuristicTree t).1 = (skipPhase t1).1 := by
    simp [heuristicTree, hremap]
  have hclean : noTrigDiv (skipPhase t1).1 = true := by
    have hc := remapAll_clean t
    rw [hremap] at hc
    simp only [noTrigDiv, d1]
    simpa [noTrigDiv] using hc
  have hstable : heuristicTree (skipPhase t1).1 = ((skipPhase t1).1, false) := by
    apply heuristicTree_stable (skipPhase t1).1 (effId i) hclean
    · rw [hh1, hH]
      decide
    · exact p1
    · exact effId_ne i
    · rw [c1]
      omega
  rw [ht2, hstable, c1]

/-- A fragment with one header and one main. -/
def oneHeaderFrag : HForest :=
  .cons (.elem "header" [] none none .nil)
    (.cons (.elem "main" [] none none .nil) .nil)

/-- Witness for C9 at the one-header-one-main fragment: two runs leave
exactly one skip link. -/
theorem claim_C9_witness :
    remapAll oneHeaderFrag = (oneHeaderFrag, false) ∧
    countTagF "header" oneHeaderFrag = 1 ∧
    countTagF "main" oneHeaderFrag = 1 ∧
    mainProbe oneHeaderFrag = some none ∧
    countSkipF ("#" ++ effId none)
        ((heuristicTree (heuristicTree oneHeaderFrag).1).1) =
      max (countSkipF ("#" ++ effId none) oneHeaderFrag) 1 :=
  ⟨rfl, rfl, rfl, rfl,
    claim_C9 oneHeaderFrag oneHeaderFrag false none rfl rfl rfl rfl⟩

/-- Counterexample to claim C1 as stated: the two entry points do NOT run
an identical inner flow.  With original `"aaaaa"` (length 5) and raw
generation `"bbbbbbbbbb"` (length 10, ratio exactly 2.0), fix's inclusive
gate `0.6 ≤ ratio ≤ 2.0` accepts the candidate while analyze's strict
gate `0.5 < ratio < 2.0` rejects it and falls through to the heuristic,
so the two working fragments differ. -/
theorem claim_C1_counterexample :
    fixSteps123 (fun _ => none) (fun _ => "") "aaaaa" (some "bbbbbbbbbb") =
      "bbbbbbbbbb" ∧
    analyzeStep1 (fun _ => none) (fun _ => "") "aaaaa" (some "bbbbbbbbbb") =
      "aaaaa" ∧
    ("bbbbbbbbbb" : String) ≠ "aaaaa" := by
  have h5 : ("aaaaa" : String).length ≠ 0 := by decide
  have hst : stripTask "bbbbbbbbbb" = "bbbbbbbbbb" := rfl
  have hf := fixTry_some_eq "aaaaa" "bbbbbbbbbb" h5
  rw [hst, if_pos (by decide)] at hf
  have ha := analyzeTry_some_eq "aaaaa" "bbbbbbbbbb" h5
  rw [if_neg (by decide)] at ha
  refine ⟨?_, ?_, by decide⟩
  · simp [fixSteps123, hf]
  · simp [analyzeStep1, ha, heuristic_fix_all]

/-- Claim C1, amended: fix's steps 1–3 and analyze's step 1 share the
generation → gate → heuristic-fallback shape but with different gates
(fix strips the task prefix before an inclusive `0.6 ≤ ratio ≤ 2.0`
check; analyze checks the strict band `0.5 < ratio < 2.0` on the
unstripped output and strips afterwards).  The two working fragments
coincide whenever the generator fails, or the original is empty, or the
raw generation lacks the task prefix and its length ratio lies in
`[0.6, 2.0)` (where both gates agree). -/
theorem claim_C1 (parse : String → Option HForest) (pretty : HForest → String)
    (code : String) (gen : Option String)
    (h : gen = none ∨ ∃ g, gen = some g ∧ pyStartswith g taskPre = false ∧
      (code.length = 0 ∨
        (3 * code.length ≤ 5 * g.length ∧ g.length < 2 * code.length))) :
    fixSteps123 parse pretty code gen = analyzeStep1 parse pretty code gen := by
  rcases h with hnone | ⟨g, hg, hps, hband⟩
  · subst hnone
    simp [fixSteps123, analyzeStep1, fixTry, analyzeTry]
  · subst hg
    have hst : stripTask g = g := by simp [stripTask, hps]
    by_cases hc : code.length = 0
    · rw [fixSteps123, analyzeStep1, fixTry_empty code g hc,
        analyzeTry_empty code g hc]
    · rcases hband with hc0 | hband
      · exact absurd hc0 hc
      · have hf := fixTry_some_eq code g hc
        rw [hst] at hf
        have ha := analyzeTry_some_eq code g hc
        rw [hst] at ha
        have hg1 : 0 < g.length := by omega
        rw [if_pos ⟨hband.1, by omega⟩] at hf
        rw [if_pos ⟨by omega, hband.2⟩] at ha
        rw [fixSteps123, analyzeStep1, hf, ha]

/-- Witness for the amended C1 at a concrete failing generator. -/
theorem claim_C1_witness :
    fixSteps123 (fun _ => none) (fun _ => "") "x" none =
      analyzeStep1 (fun _ => none) (fun _ => "") "x" none :=
  claim_C1 (fun _ => none) (fun _ => "") "x" none (Or.inl rfl)

/-- Counterexample to claim C3 as stated: a candidate whose ratio sits
exactly at the upper accepted bound (10/5 = 2.0) is accepted by fix's
inclusive gate but REJECTED by analyze's strict gate, so the two handlers
do not both accept at the bound. -/
theorem claim_C3_counterexample :
    ((("bbbbbbbbbb" : String).length : ℚ) /
        (("aaaaa" : String).length : ℚ) = 2.0) ∧
    (fixTry "aaaaa" (some "bbbbbbbbbb")).1 = true ∧
    (analyzeTry "aaaaa" (some "bbbbbbbbbb")).1 = false := by
  refine ⟨?_, ?_, ?_⟩
  · rw [show ("bbbbbbbbbb" : String).length = 10 from rfl,
      show ("aaaaa" : String).length = 5 from rfl]
    norm_num
  · have hf := fixTry_some_eq "aaaaa" "bbbbbbbbbb" (by decide)
    rw [show stripTask "bbbbbbbbbb" = "bbbbbbbbbb" from rfl,
      if_pos (by decide)] at hf
    rw [hf]
  · have ha := analyzeTry_some_eq "aaaaa" "bbbbbbbbbb" (by decide)
    rw [if_neg (by decide)] at ha
    rw [ha]

/-- Claim C3, amended: boundary behavior of the two gates, characterized
exactly.  For a non-empty original and a raw generation without the task
prefix, fix accepts precisely when `0.6 ≤ ratio ≤ 2.0` (inclusive bounds:
exactly at 0.6 or 2.0 is accepted, just outside rejected), while analyze
accepts precisely when `0.5 < ratio < 2.0` (strict bounds: exactly at 0.5
or 2.0 is rejected). -/
theorem claim_C3 (code g : String) (hc : code.length ≠ 0)
    (hps : pyStartswith g taskPre = false) :
    ((fixTry code (some g)).1 = true ↔
      ((0.6 : ℚ) ≤ (g.length : ℚ) / (code.length : ℚ) ∧
        (g.length : ℚ) / (code.length : ℚ) ≤ 2.0)) ∧
    ((analyzeTry code (some g)).1 = true ↔
      ((0.5 : ℚ) < (g.length : ℚ) / (code.length : ℚ) ∧
        (g.length : ℚ) / (code.length : ℚ) < 2.0)) := by
  have hst : stripTask g = g := by simp [stripTask, hps]
  have hf := fixTry_some_eq code g hc
  rw [hst] at hf
  have ha := analyzeTry_some_eq code g hc
  constructor
  · rw [hf, fix_band_iff g.length code.length hc]
    by_cases hP : 3 * code.length ≤ 5 * g.length ∧ g.length ≤ 2 * code.length
    · simp [hP]
    · simp [hP]
  · rw [ha, analyze_band_iff g.length code.length hc]
    by_cases hP : code.length < 2 * g.length ∧ g.length < 2 * code.length
    · simp [hP]
    · simp [hP]

/-- Witness for the amended C3 at the boundary input (ratio exactly 2.0):
the characterization instantiates and shows fix accepting while analyze
rejects. -/
theorem claim_C3_witness :
    ((fixTry "aaaaa" (some "bbbbbbbbbb")).1 = true ↔
      ((0.6 : ℚ) ≤ ((("bbbbbbbbbb" : String).length : ℚ) /
          (("aaaaa" : String).length : ℚ)) ∧
        ((("bbbbbbbbbb" : String).length : ℚ) /
          (("aaaaa" : String).length : ℚ)) ≤ 2.0)) ∧
    ((analyzeTry "aaaaa" (some "bbbbbbbbbb")).1 = true ↔
      ((0.5 : ℚ) < ((("bbbbbbbbbb" : String).length : ℚ) /
          (("aaaaa" : String).length : ℚ)) ∧
        ((("bbbbbbbbbb" : String).length : ℚ) /
          (("aaaaa" : String).length : ℚ)) < 2.0)) :=
  claim_C3 "aaaaa" "bbbbbbbbbb" (by decide) (by decide)

/-- Counterexample to claim C4 as stated: the quality gate has no
known-bad-pattern detector.  The original `<button>Go</button>` does not
contain `role="button"`, the length-acceptable candidate
`<button role="button">Go</button>` does (ratio 33/19 ≈ 1.74), and fix
returns this pattern-carrying candidate unchanged — the legacy fixup does
not fire because it also requires the pattern in the *original*. -/
theorem claim_C4_counterexample :
    pyContains "<button role=\"button\">Go</button>" "role=\"button\"" = true ∧
    pyContains "<button>Go</button>" "role=\"button\"" = false ∧
    fix_code (fun _ => none) (fun _ => "") "<button>Go</button>"
        (some "<button role=\"button\">Go</button>") =
      "<button role=\"button\">Go</button>" := by
  refine ⟨by decide, by decide, ?_⟩
  have hf := fixTry_some_eq "<button>Go</button>"
    "<button role=\"button\">Go</button>" (by decide)
  rw [show stripTask "<button role=\"button\">Go</button>" =
      "<button role=\"button\">Go</button>" from rfl,
    if_pos (by decide)] at hf
  rw [fix_code, fixSteps123, hf]
  rw [if_neg (by decide)]
  decide

/-- Claim C4, amended: the length gate alone decides acceptance; a
candidate that reintroduces `role="button"` when the original lacks the
pattern becomes fix's returned result unchanged (the legacy fixup of step
4 only fires when the *original* also contains `<button` and
`role="button"`). -/
theorem claim_C4 (parse : String → Option HForest) (pretty : HForest → String)
    (code g : String)
    (hc : code.length ≠ 0)
    (hps : pyStartswith g taskPre = false)
    (hband : 3 * code.length ≤ 5 * g.length ∧ g.length ≤ 2 * code.length)
    (hne : g ≠ code)
    (horig : pyContains code "role=\"button\"" = false)
    (halt : pyContains g "alt=\"\"\"" = false) :
    fix_code parse pretty code (some g) = g := by
  have hst : stripTask g = g := by simp [stripTask, hps]
  have hf := fixTry_some_eq code g hc
  rw [hst, if_pos hband] at hf
  rw [fix_code, fixSteps123, hf]
  rw [if_neg (by simp [hne])]
  rw [fixLegacy]
  have hcond : ¬(pyContains code "<button" = true ∧
      pyContains code "role=\"button\"" = true) := by
    simp [horig]
  by_cases hp : pyContains g "role=\"button\"" = true
  · rw [if_pos hp, if_neg hcond, altClean, if_neg (by simp [halt])]
  · rw [if_neg hp, altClean, if_neg (by simp [halt])]

/-- Witness for the amended C4 at the concrete button fragments. -/
theorem claim_C4_witness :
    fix_code (fun _ => none) (fun _ => "") "<button>Go</button>"
        (some "<button role=\"button\">Stop</button>") =
      "<button role=\"button\">Stop</button>" :=
  claim_C4 (fun _ => none) (fun _ => "") "<button>Go</button>"
    "<button role=\"button\">Stop</button>" (by decide) (by decide)
    (by decide) (by decide) (by decide) (by decide)

/-- Counterexample to claim C5 as stated: with original
`<button role="button">Go</button>` and accepted candidate
`<button role="button">Stop</button>` (the working fragment of steps
1–3), the returned fragment is the fixup of the ORIGINAL
(`<button>Go</button>`), not the fixup of the working fragment
(`<button>Stop</button>`). -/
theorem claim_C5_counterexample :
    fixSteps123 (fun _ => none) (fun _ => "")
        "<button role=\"button\">Go</button>"
        (some "<button role=\"button\">Stop</button>") =
      "<button role=\"button\">Stop</button>" ∧
    fix_code (fun _ => none) (fun _ => "")
        "<button role=\"button\">Go</button>"
        (some "<button role=\"button\">Stop</button>") =
      "<button>Go</button>" ∧
    altClean (buttonFixup "<button role=\"button\">Stop</button>") =
      "<button>Stop</button>" ∧
    ("<button>Go</button>" : String) ≠ "<button>Stop</button>" := by
  have hf := fixTry_some_eq "<button role=\"button\">Go</button>"
    "<button role=\"button\">Stop</button>" (by decide)
  rw [show stripTask "<button role=\"button\">Stop</button>" =
      "<button role=\"button\">Stop</button>" from rfl,
    if_pos (by decide)] at hf
  have hs : fixSteps123 (fun _ => none) (fun _ => "")
      "<button role=\"button\">Go</button>"
      (some "<button role=\"button\">Stop</button>") =
      "<button role=\"button\">Stop</button>" := by
    rw [fixSteps123, hf]
    rw [if_neg (by decide)]
  refine ⟨hs, ?_, by decide, by decide⟩
  rw [fix_code, hs]
  decide

/-- Claim C5, amended: when the step-4 trigger fires (pattern in the
working fragment, `<button` and the pattern in the original), fix discards
the working fragment and returns the fixup recomputed from the original
input fragment, followed by the alt cleanup. -/
theorem claim_C5 (parse : String → Option HForest) (pretty : HForest → String)
    (code : String) (gen : Option String)
    (htrig : pyContains (fixSteps123 parse pretty code gen)
      "role=\"button\"" = true)
    (hbtn : pyContains code "<button" = true)
    (hpat : pyContains code "role=\"button\"" = true) :
    fix_code parse pretty code gen = altClean (buttonFixup code) := by
  rw [fix_code, fixLegacy, if_pos htrig, if_pos ⟨hbtn, hpat⟩]

/-- Witness for the amended C5: generator fails, the heuristic falls back
to the original (which carries the pattern), and the result is the fixup
of the original. -/
theorem claim_C5_witness :
    fix_code (fun _ => none) (fun _ => "")
        "<button role=\"button\">Go</button>" none =
      altClean (buttonFixup "<button role=\"button\">Go</button>") :=
  claim_C5 (fun _ => none) (fun _ => "")
    "<button role=\"button\">Go</button>" none (by decide) (by decide)
    (by decide)

/-- The abstraction of BeautifulSoup's parse of `<img alt="""">` (and of
`<img alt=""">`): a single `img` element with no classes, id, href or
children; the `alt` attribute junk is not read by the engine. -/
def imgFrag : HForest := .cons (.elem "img" [] none none .nil) .nil

/-- Counterexample to claim C6 as stated: on the input `<img alt="""">`
(FOUR quote characters, as written in the claim) with the generator
failing, fix returns `<img alt=""">` — the single non-overlapping
`replace` of `alt="""` by `alt=""` removes one quote, leaving three — and
not the claimed `<img alt="">`. -/
theorem claim_C6_counterexample :
    fix_code (fun s => if s = "<img alt=\"\"\"\">" then some imgFrag else none)
        (fun _ => "") "<img alt=\"\"\"\">" none = "<img alt=\"\"\">" ∧
    ("<img alt=\"\"\">" : String) ≠ "<img alt=\"\">" :=
  ⟨by decide, by decide⟩

/-- Claim C6, amended: with generation failing or rejected and the
heuristic a no-op, fix's legacy alt fixup maps the quadruply-quoted input
`<img alt="""">` to `<img alt=""">` (one replacement of `alt="""` by
`alt=""`), and maps the genuinely triply-quoted input `<img alt=""">`
to exactly `<img alt="">`. -/
theorem claim_C6 (parse : String → Option HForest) (pretty : HForest → String)
    (gen gen2 : Option String)
    (hgen : fixTry "<img alt=\"\"\"\">" gen = (false, "<img alt=\"\"\"\">"))
    (hparse : parse "<img alt=\"\"\"\">" = some imgFrag)
    (hgen2 : fixTry "<img alt=\"\"\">" gen2 = (false, "<img alt=\"\"\">"))
    (hparse2 : parse "<img alt=\"\"\">" = some imgFrag) :
    fix_code parse pretty "<img alt=\"\"\"\">" gen = "<img alt=\"\"\">" ∧
    fix_code parse pretty "<img alt=\"\"\">" gen2 = "<img alt=\"\">" := by
  have ht : (heuristicTree imgFrag).2 = false := rfl
  constructor
  · have hheur : heuristic_fix_all parse pretty "<img alt=\"\"\"\">" =
        "<img alt=\"\"\"\">" := by
      simp [heuristic_fix_all, hparse, ht]
    rw [fix_code, fixSteps123, hgen]
    rw [if_pos (Or.inl rfl), hheur]
    decide
  · have hheur : heuristic_fix_all parse pretty "<img alt=\"\"\">" =
        "<img alt=\"\"\">" := by
      simp [heuristic_fix_all, hparse2, ht]
    rw [fix_code, fixSteps123, hgen2]
    rw [if_pos (Or.inl rfl), hheur]
    decide

/-- Witness for the amended C6 with failing generators and the concrete
parser. -/
theorem claim_C6_witness :
    fix_code
        (fun s => if s = "<img alt=\"\"\"\">" ∨ s = "<img alt=\"\"\">"
          then some imgFrag else none)
        (fun _ => "") "<img alt=\"\"\"\">" none = "<img alt=\"\"\">" ∧
    fix_code
        (fun s => if s = "<img alt=\"\"\"\">" ∨ s = "<img alt=\"\"\">"
          then some imgFrag else none)
        (fun _ => "") "<img alt=\"\"\">" none = "<img alt=\"\">" :=
  claim_C6
    (fun s => if s = "<img alt=\"\"\"\">" ∨ s = "<img alt=\"\"\">"
      then some imgFrag else none)
    (fun _ => "") none none rfl rfl rfl rfl

/-- Claim C10: empty-original safety.  On the empty input fragment the
ratio computation raises `ZeroDivisionError`, which both handlers catch
(the embedded division returns `none`): no candidate is ever accepted by
either gate, and fix — with the model loaded — falls through to the
heuristic path and returns the legacy-cleaned heuristic result instead of
failing. -/
theorem claim_C10 (parse : String → Option HForest)
    (pretty : HForest → String) (gen : Option String) (g : String) :
    fixTry "" (some g) = (false, "") ∧
    analyzeTry "" (some g) = (false, "") ∧
    fixEndpoint true parse pretty "" gen =
      some (altClean (heuristic_fix_all parse pretty "")) := by
  refine ⟨fixTry_empty "" g rfl, analyzeTry_empty "" g rfl, ?_⟩
  have hft : fixTry "" gen = (false, "") := by
    cases gen with
    | none => rfl
    | some g2 => exact fixTry_empty "" g2 rfl
  rw [fixEndpoint, if_pos rfl, fix_code, fixSteps123, hft]
  rw [if_pos (Or.inl rfl), fixLegacy]
  by_cases hp : pyContains (heuristic_fix_all parse pretty "")
      "role=\"button\"" = true
  · rw [if_pos hp, if_neg (by decide)]
  · rw [if_neg hp]
